import Mathlib

/-!
Shallow embedding of `scripts/setup_payment_notifications.py`.

The script is a command-line text emitter: it validates the argument
count, then prints a fixed banner, four hard-coded code templates (each
produced by its own generator function), and a closing checklist.

Python functions implicitly have access to the whole process state
(environment variables, the filesystem, the network, the clock), so we
embed them as functions over an explicit `World`; a `print` call appends
one line to the stdout trace.  Machine behaviour such as `sys.exit(1)`
becomes an explicit exit code in the result.
-/

namespace PaymentNotifications

/-- Boolean prefix test on character lists. -/
def isPrefixB : List Char → List Char → Bool
  | [], _ => true
  | _ :: _, [] => false
  | p :: ps, c :: cs => p == c && isPrefixB ps cs

/-- Boolean substring occurrence test: does `pat` occur in `s`? -/
def occursB (pat : List Char) : List Char → Bool
  | [] => pat.isEmpty
  | c :: cs => isPrefixB pat (c :: cs) || occursB pat cs

/-- Number of starting positions (at a nonempty suffix) where `pat` occurs. -/
def countOccursB (pat : List Char) : List Char → Nat
  | [] => 0
  | c :: cs =>
    if isPrefixB pat (c :: cs) then countOccursB pat cs + 1 else countOccursB pat cs

/-- The ambient process state a Python program can touch: environment
variables, filesystem contents, a log of network requests made, the
clock, and a random-number seed. -/
structure World where
  env : String → Option String
  files : String → Option String
  networkLog : List String
  now : Nat
  randSeed : Nat

/-- Result of running the script: the lines printed to standard output
(one entry per `print` call), the process exit code, and the world
after the run. -/
structure ProcResult where
  stdout : List String
  exitCode : Nat
  world : World

/-- Rendering of the stdout trace to the byte stream actually written:
each `print(x)` writes `x` followed by a newline. -/
def render (out : List String) : String :=
  out.foldr (fun s acc => s ++ "\n" ++ acc) ""

def notification_types_text : String :=
  "// Notification types for payment events\nexport const PAYMENT_NOTIFICATION_TYPES = \x7b\n  PAYMENT_SUCCESS: \"payment_success\",\n  PAYMENT_FAILED: \"payment_failed\",\n  SUBSCRIPTION_RENEWAL: \"subscription_renewal\",\n  SUBSCRIPTION_CANCELLED: \"subscription_cancelled\",\n  REFUND_ISSUED: \"refund_issued\",\n  ACCOUNT_CHANGE: \"account_change\",\n\x7d as const;\n\nexport const PAYMENT_NOTIFICATION_ICONS = \x7b\n  payment_success: \"CheckCircle\",\n  payment_failed: \"AlertCircle\",\n  subscription_renewal: \"Clock\",\n  subscription_cancelled: \"XCircle\",\n  refund_issued: \"RefreshCw\",\n  account_change: \"Settings\",\n\x7d as const;\n\nexport const PAYMENT_NOTIFICATION_COLORS = \x7b\n  payment_success: \"bg-green-50 border-green-200\",\n  payment_failed: \"bg-red-50 border-red-200\",\n  subscription_renewal: \"bg-blue-50 border-blue-200\",\n  subscription_cancelled: \"bg-yellow-50 border-yellow-200\",\n  refund_issued: \"bg-purple-50 border-purple-200\",\n  account_change: \"bg-gray-50 border-gray-200\",\n\x7d as const;\n"

def database_schema_text : String :=
  "// Add to drizzle/schema.ts\n\nimport \x7b mysqlTable, int, text, timestamp, boolean, varchar, json \x7d from \"drizzle-orm/mysql-core\";\nimport \x7b relations \x7d from \"drizzle-orm\";\n\nexport const notifications = mysqlTable(\"notifications\", \x7b\n  id: int(\"id\").primaryKey().autoincrement(),\n  adminId: int(\"admin_id\").notNull(),\n  type: varchar(\"type\", \x7b length: 50 \x7d).notNull(), // payment_success, payment_failed, etc.\n  title: text(\"title\").notNull(),\n  body: text(\"body\").notNull(),\n  linkUrl: text(\"link_url\"),\n  metadata: json(\"metadata\"), // Payment-specific data\n  read: boolean(\"read\").default(false),\n  dismissed: boolean(\"dismissed\").default(false),\n  createdAt: timestamp(\"created_at\").defaultNow(),\n  updatedAt: timestamp(\"updated_at\").defaultNow().onUpdateNow(),\n\x7d);\n\nexport const adminNotificationPreferences = mysqlTable(\"admin_notification_preferences\", \x7b\n  id: int(\"id\").primaryKey().autoincrement(),\n  adminId: int(\"admin_id\").notNull().unique(),\n  inAppPayments: boolean(\"in_app_payments\").default(true),\n  inAppSystemAlerts: boolean(\"in_app_system_alerts\").default(true),\n  inAppAccountChanges: boolean(\"in_app_account_changes\").default(true),\n  emailPayments: boolean(\"email_payments\").default(false),\n  emailSystemAlerts: boolean(\"email_system_alerts\").default(false),\n  emailAccountChanges: boolean(\"email_account_changes\").default(false),\n  emailDigestFrequency: varchar(\"email_digest_frequency\", \x7b length: 20 \x7d).default(\"immediate\"), // immediate, daily, weekly\n  quietHoursEnabled: boolean(\"quiet_hours_enabled\").default(false),\n  quietHoursStart: varchar(\"quiet_hours_start\", \x7b length: 5 \x7d), // HH:MM\n  quietHoursEnd: varchar(\"quiet_hours_end\", \x7b length: 5 \x7d), // HH:MM\n  createdAt: timestamp(\"created_at\").defaultNow(),\n  updatedAt: timestamp(\"updated_at\").defaultNow().onUpdateNow(),\n\x7d);\n\nexport const notificationsRelations = relations(notifications, (\x7b one \x7d) => (\x7b\n  admin: one(users, \x7b\n    fields: [notifications.adminId],\n    references: [users.id],\n  \x7d),\n\x7d));\n"

def webhook_handler_text : String :=
  "// Add to server/_core/stripeWebhook.ts\n\nimport Stripe from \"stripe\";\nimport \x7b sendPaymentConfirmationNotification, sendPaymentFailureNotification \x7d from \"../paymentNotifications\";\n\nconst stripe = new Stripe(process.env.STRIPE_SECRET_KEY || \"\");\n\nexport async function handleStripeWebhook(req: any, res: any) \x7b\n  const sig = req.headers[\"stripe-signature\"];\n  const webhookSecret = process.env.STRIPE_WEBHOOK_SECRET;\n\n  if (!sig || !webhookSecret) \x7b\n    return res.status(400).json(\x7b error: \"Missing signature or webhook secret\" \x7d);\n  \x7d\n\n  let event: Stripe.Event;\n\n  try \x7b\n    event = stripe.webhooks.constructEvent(req.body, sig, webhookSecret);\n  \x7d catch (error: any) \x7b\n    console.error(\"Webhook signature verification failed:\", error.message);\n    return res.status(400).json(\x7b error: \"Invalid signature\" \x7d);\n  \x7d\n\n  // Handle test events\n  if (event.id.startsWith(\"evt_test_\")) \x7b\n    console.log(\"[Webhook] Test event detected, returning verification response\");\n    return res.json(\x7b verified: true \x7d);\n  \x7d\n\n  try \x7b\n    switch (event.type) \x7b\n      case \"checkout.session.completed\":\n        await handleCheckoutSessionCompleted(event.data.object as Stripe.Checkout.Session);\n        break;\n\n      case \"payment_intent.succeeded\":\n        await handlePaymentIntentSucceeded(event.data.object as Stripe.PaymentIntent);\n        break;\n\n      case \"payment_intent.payment_failed\":\n        await handlePaymentIntentFailed(event.data.object as Stripe.PaymentIntent);\n        break;\n\n      case \"customer.subscription.created\":\n        console.log(\"Subscription created:\", event.data.object);\n        break;\n\n      case \"customer.subscription.updated\":\n        console.log(\"Subscription updated:\", event.data.object);\n        break;\n\n      case \"customer.subscription.deleted\":\n        console.log(\"Subscription deleted:\", event.data.object);\n        break;\n\n      case \"charge.refunded\":\n        console.log(\"Charge refunded:\", event.data.object);\n        break;\n\n      default:\n        console.log(\"Unhandled event type:\", event.type);\n    \x7d\n\n    res.json(\x7b received: true \x7d);\n  \x7d catch (error) \x7b\n    console.error(\"Error processing webhook:\", error);\n    res.status(500).json(\x7b error: \"Webhook processing failed\" \x7d);\n  \x7d\n\x7d\n\nasync function handleCheckoutSessionCompleted(session: Stripe.Checkout.Session) \x7b\n  const metadata = session.metadata || \x7b\x7d;\n  \n  await sendPaymentConfirmationNotification(\x7b\n    amount: session.amount_total || 0,\n    currency: session.currency || \"usd\",\n    tier: metadata.tier || \"school\",\n    billingInterval: metadata.billingInterval || \"annual\",\n    customerEmail: session.customer_email || \"\",\n    customerName: metadata.customerName || \"\",\n    sessionId: session.id,\n  \x7d);\n\x7d\n\nasync function handlePaymentIntentSucceeded(intent: Stripe.PaymentIntent) \x7b\n  const metadata = intent.metadata || \x7b\x7d;\n  \n  await sendPaymentConfirmationNotification(\x7b\n    amount: intent.amount,\n    currency: intent.currency,\n    tier: metadata.tier || \"school\",\n    billingInterval: metadata.billingInterval || \"annual\",\n    customerEmail: metadata.customerEmail || \"\",\n    customerName: metadata.customerName || \"\",\n    sessionId: intent.id,\n  \x7d);\n\x7d\n\nasync function handlePaymentIntentFailed(intent: Stripe.PaymentIntent) \x7b\n  const metadata = intent.metadata || \x7b\x7d;\n  \n  await sendPaymentFailureNotification(\x7b\n    amount: intent.amount,\n    currency: intent.currency,\n    tier: metadata.tier || \"school\",\n    billingInterval: metadata.billingInterval || \"annual\",\n    customerEmail: metadata.customerEmail || \"\",\n    customerName: metadata.customerName || \"\",\n    failureReason: intent.last_payment_error?.message || \"Unknown error\",\n    sessionId: intent.id,\n  \x7d);\n\x7d\n"

def notification_helpers_text : String :=
  "// Add to server/paymentNotifications.ts\n\nimport \x7b getDb \x7d from \"./db\";\nimport \x7b createAdminNotification, getAdminNotificationPreferences \x7d from \"./notifications\";\n\ninterface PaymentData \x7b\n  amount: number;\n  currency: string;\n  tier: \"school\" | \"district\";\n  billingInterval: \"month\" | \"year\";\n  customerEmail: string;\n  customerName: string;\n  sessionId?: string;\n  failureReason?: string;\n  renewalDate?: Date;\n  subscriptionId?: string;\n  cancellationReason?: string;\n  refundReason?: string;\n  chargeId?: string;\n  refundId?: string;\n  paymentMethodType?: string;\n  last4?: string;\n\x7d\n\nexport async function sendPaymentConfirmationNotification(data: PaymentData) \x7b\n  try \x7b\n    const tierLabel = data.tier === \"school\" ? \"School License\" : \"District License\";\n    const intervalLabel = data.billingInterval === \"month\" ? \"Monthly\" : \"Annual\";\n    const amount = (data.amount / 100).toFixed(2);\n\n    const title = \"Payment Confirmed ✓\";\n    const body = `$\x7bintervalLabel\x7d $\x7btierLabel\x7d subscription activated. Amount: $$\x7bamount\x7d $\x7bdata.currency.toUpperCase()\x7d. Customer: $\x7bdata.customerEmail\x7d`;\n\n    const metadata = \x7b\n      paymentType: \"subscription\",\n      tier: data.tier,\n      amount: data.amount,\n      currency: data.currency,\n      billingInterval: data.billingInterval,\n      customerEmail: data.customerEmail,\n      customerName: data.customerName,\n      sessionId: data.sessionId,\n      timestamp: new Date().toISOString(),\n    \x7d;\n\n    const linkUrl = `/admin/payments?session=$\x7bdata.sessionId\x7d`;\n\n    await createAdminNotification(\x7b\n      type: \"payment_success\",\n      title,\n      body,\n      linkUrl,\n      metadata,\n    \x7d);\n\n    console.log(\"Payment confirmation notification sent\");\n  \x7d catch (error) \x7b\n    console.error(\"Failed to send payment confirmation notification:\", error);\n  \x7d\n\x7d\n\nexport async function sendPaymentFailureNotification(data: PaymentData) \x7b\n  try \x7b\n    const tierLabel = data.tier === \"school\" ? \"School License\" : \"District License\";\n    const intervalLabel = data.billingInterval === \"month\" ? \"Monthly\" : \"Annual\";\n    const amount = (data.amount / 100).toFixed(2);\n\n    const title = \"Payment Failed ✗\";\n    const body = `$\x7bintervalLabel\x7d $\x7btierLabel\x7d subscription failed. Amount: $$\x7bamount\x7d $\x7bdata.currency.toUpperCase()\x7d. Reason: $\x7bdata.failureReason\x7d. Customer: $\x7bdata.customerEmail\x7d`;\n\n    const metadata = \x7b\n      paymentType: \"subscription\",\n      tier: data.tier,\n      amount: data.amount,\n      currency: data.currency,\n      billingInterval: data.billingInterval,\n      customerEmail: data.customerEmail,\n      customerName: data.customerName,\n      failureReason: data.failureReason,\n      sessionId: data.sessionId,\n      timestamp: new Date().toISOString(),\n    \x7d;\n\n    const linkUrl = `/admin/payments?session=$\x7bdata.sessionId\x7d&status=failed`;\n\n    await createAdminNotification(\x7b\n      type: \"payment_failed\",\n      title,\n      body,\n      linkUrl,\n      metadata,\n    \x7d);\n\n    console.log(\"Payment failure notification sent\");\n  \x7d catch (error) \x7b\n    console.error(\"Failed to send payment failure notification:\", error);\n  \x7d\n\x7d\n"

/-- `generate_notification_types()`: returns its fixed literal, touching
nothing in the world. -/
def generate_notification_types (w : World) : String × World :=
  (notification_types_text, w)

/-- `generate_database_schema()`: returns its fixed literal, touching
nothing in the world. -/
def generate_database_schema (w : World) : String × World :=
  (database_schema_text, w)

/-- `generate_webhook_handler()`: returns its fixed literal, touching
nothing in the world. -/
def generate_webhook_handler (w : World) : String × World :=
  (webhook_handler_text, w)

/-- `generate_notification_helpers()`: returns its fixed literal, touching
nothing in the world. -/
def generate_notification_helpers (w : World) : String × World :=
  (notification_helpers_text, w)

/-- `pathlib.Path(s)`: the constructor only stores the string; it performs
no filesystem access. -/
def mkPath (s : String) : String := s

/-- The usage line printed when the path argument is missing. -/
def usage_line : String :=
  "Usage: python setup_payment_notifications.py <project-path>"

/-- `"=" * 50` from the source. -/
def banner : String := String.mk (List.replicate 50 '=')

/-- `"-" * 50` from the source. -/
def subBanner : String := String.mk (List.replicate 50 '-')

/-- `main()`: argument-count check, then the fixed print sequence.
`argv` is `sys.argv`, program name included.  Falling off the end of the
script exits with code 0. -/
def main (argv : List String) (w : World) : ProcResult :=
  if argv.length < 2 then
    { stdout := [usage_line], exitCode := 1, world := w }
  else
    let project_path := mkPath ((argv.drop 1).headD "")
    let (t1, w1) := generate_notification_types w
    let (t2, w2) := generate_database_schema w1
    let (t3, w3) := generate_webhook_handler w2
    let (t4, w4) := generate_notification_helpers w3
    let _ := project_path
    { stdout :=
      [ "📦 Payment Notification System Setup", banner, "",
        "Generated code snippets:", "",
        "1. Notification Types (shared/notifications.ts)", subBanner, t1, "",
        "2. Database Schema (drizzle/schema.ts)", subBanner, t2, "",
        "3. Webhook Handler (server/_core/stripeWebhook.ts)", subBanner, t3, "",
        "4. Notification Helpers (server/paymentNotifications.ts)", subBanner, t4, "",
        banner, "✅ Code generation complete!", "",
        "Next steps:",
        "1. Copy the generated code snippets into your project",
        "2. Run \x27pnpm db:push\x27 to apply database migrations",
        "3. Register the webhook endpoint in your server",
        "4. Test with Stripe CLI: stripe listen --forward-to localhost:3000/api/stripe/webhook" ],
      exitCode := 0,
      world := w4 }

/-- A concrete world used to instantiate universally quantified theorems. -/
def w0 : World :=
  { env := fun _ => none, files := fun _ => none,
    networkLog := [], now := 0, randSeed := 0 }

set_option maxRecDepth 400000

/-- C1: an invocation with no argument after the program name prints the
usage message (which contains the program name) and exits with code 1;
any invocation with at least one argument does not take this error path
and exits with code 0. -/
theorem C1_argument_check (argv : List String) (w : World) :
    (argv.length < 2 →
      (main argv w).stdout = [usage_line] ∧ (main argv w).exitCode = 1 ∧
      occursB ("setup_payment_notifications.py".data) usage_line.data = true) ∧
    (2 ≤ argv.length → (main argv w).exitCode = 0) := by
  constructor
  · intro h
    refine ⟨by simp [main, if_pos h], by simp [main, if_pos h], by decide⟩
  · intro h
    have h' : ¬ argv.length < 2 := by omega
    simp [main, if_neg h', generate_notification_types, generate_database_schema,
      generate_webhook_handler, generate_notification_helpers]

/-- Witness for C1 at the concrete invocations `["prog"]` and
`["prog", "/tmp/a"]`. -/
theorem C1_argument_check_witness :
    ((main ["prog"] w0).stdout = [usage_line] ∧ (main ["prog"] w0).exitCode = 1 ∧
      occursB ("setup_payment_notifications.py".data) usage_line.data = true) ∧
    (main ["prog", "/tmp/a"] w0).exitCode = 0 :=
  ⟨(C1_argument_check ["prog"] w0).1 (by decide),
   (C1_argument_check ["prog", "/tmp/a"] w0).2 (by decide)⟩
/-- C2: an invocation with exactly one argument (any string, existing
path or not) exits with code 0 and its stdout contains the four section
headers in the fixed order: notification types, database schema, webhook
handler, notification helpers. -/
theorem C2_single_argument_output (prog arg : String) (w : World) :
    (main [prog, arg] w).exitCode = 0 ∧
    List.Sublist
      [ "1. Notification Types (shared/notifications.ts)",
        "2. Database Schema (drizzle/schema.ts)",
        "3. Webhook Handler (server/_core/stripeWebhook.ts)",
        "4. Notification Helpers (server/paymentNotifications.ts)" ]
      (main [prog, arg] w).stdout := by
  constructor
  · simp [main, generate_notification_types, generate_database_schema,
      generate_webhook_handler, generate_notification_helpers]
  · simp only [main, generate_notification_types, generate_database_schema,
      generate_webhook_handler, generate_notification_helpers,
      List.length_cons, List.length_nil, Nat.lt_irrefl, if_false]
    exact .cons _ <| .cons _ <| .cons _ <| .cons _ <| .cons _ <| .cons₂ _ <|
      .cons _ <| .cons _ <| .cons _ <| .cons₂ _ <|
      .cons _ <| .cons _ <| .cons _ <| .cons₂ _ <|
      .cons _ <| .cons _ <| .cons _ <| .cons₂ _ <| List.nil_sublist _

/-- C3: the program is deterministic — for a fixed argument list the
stdout trace, the rendered output bytes and the exit code do not depend
on the ambient world (clock, randomness, environment, filesystem). -/
theorem C3_deterministic_output (argv : List String) (w w' : World) :
    (main argv w).stdout = (main argv w').stdout ∧
    render (main argv w).stdout = render (main argv w').stdout ∧
    (main argv w).exitCode = (main argv w').exitCode := by
  by_cases h : argv.length < 2 <;>
    simp [main, h, generate_notification_types, generate_database_schema,
      generate_webhook_handler, generate_notification_helpers]

/-- C4: for any two invocations that each supply at least one argument,
the stdout traces and rendered outputs are identical whatever the
argument values are — the path is never interpolated into the output. -/
theorem C4_output_independent_of_path (p a p' a' : String)
    (r r' : List String) (w w' : World) :
    (main (p :: a :: r) w).stdout = (main (p' :: a' :: r') w').stdout ∧
    render (main (p :: a :: r) w).stdout = render (main (p' :: a' :: r') w').stdout := by
  simp only [main, List.length_cons]
  rw [if_neg (by omega : ¬ r.length + 1 + 1 < 2),
    if_neg (by omega : ¬ r'.length + 1 + 1 < 2)]
  exact ⟨rfl, rfl⟩

/-- C5: frame property — the run leaves the world untouched (no file or
environment writes, no network-log entries, no persistent state), and
the stdout trace and exit code do not depend on the world (so nothing is
read from environment, filesystem, clock or randomness either); the only
output effect is the stdout trace. -/
theorem C5_no_side_effects (argv : List String) (w w' : World) :
    (main argv w).world = w ∧
    (main argv w).stdout = (main argv w').stdout ∧
    (main argv w).exitCode = (main argv w').exitCode := by
  by_cases h : argv.length < 2 <;>
    simp [main, h, generate_notification_types, generate_database_schema,
      generate_webhook_handler, generate_notification_helpers]

/-- C6: arguments beyond the first are ignored — the whole run result
(stdout, exit code, final world) equals that of the invocation with only
the first argument. -/
theorem C6_extra_arguments_ignored (p a : String) (rest : List String) (w : World) :
    main (p :: a :: rest) w = main [p, a] w := by
  have h1 : ¬ (p :: a :: rest).length < 2 := by simp
  have h2 : ¬ ([p, a] : List String).length < 2 := by simp
  simp [main, if_neg h1, if_neg h2]
/-- C7: each of the four generator functions takes no parameters beyond
the ambient world, leaves the world untouched (no side effects), and
returns the same fixed string whatever world it is called in — in
particular its result never depends on the validated path, which it is
not even given. -/
theorem C7_generators_pure (w w' : World) :
    ((generate_notification_types w).2 = w ∧
      (generate_notification_types w).1 = (generate_notification_types w').1) ∧
    ((generate_database_schema w).2 = w ∧
      (generate_database_schema w).1 = (generate_database_schema w').1) ∧
    ((generate_webhook_handler w).2 = w ∧
      (generate_webhook_handler w).1 = (generate_webhook_handler w').1) ∧
    ((generate_notification_helpers w).2 = w ∧
      (generate_notification_helpers w).1 = (generate_notification_helpers w').1) :=
  ⟨⟨rfl, rfl⟩, ⟨rfl, rfl⟩, ⟨rfl, rfl⟩, ⟨rfl, rfl⟩⟩

/-- C8: each generator output is non-empty, the database schema block
contains both marker substrings `notifications` and
`adminNotificationPreferences`, and the webhook handler block contains
`checkout.session.completed`. -/
theorem C8_generator_markers (w : World) :
    (generate_notification_types w).1 ≠ "" ∧
    (generate_database_schema w).1 ≠ "" ∧
    (generate_webhook_handler w).1 ≠ "" ∧
    (generate_notification_helpers w).1 ≠ "" ∧
    occursB ("notifications".data) ((generate_database_schema w).1).data = true ∧
    occursB ("adminNotificationPreferences".data) ((generate_database_schema w).1).data = true ∧
    occursB ("checkout.session.completed".data) ((generate_webhook_handler w).1).data = true := by
  simp only [generate_notification_types, generate_database_schema,
    generate_webhook_handler, generate_notification_helpers]
  exact ⟨by decide, by decide, by decide, by decide, by decide, by decide, by decide⟩

/-- C9: on the error path (no argument after the program name) the
stdout trace is exactly the single usage line — none of the banner,
section headers, templates or next-steps text is printed — and the exit
code is 1. -/
theorem C9_error_path_prints_only_usage (argv : List String) (w : World)
    (h : argv.length < 2) :
    (main argv w).stdout = [usage_line] ∧ (main argv w).exitCode = 1 := by
  simp [main, if_pos h]

/-- Witness for C9 at the concrete invocation `["p"]`. -/
theorem C9_error_path_prints_only_usage_witness :
    (main ["p"] w0).stdout = [usage_line] ∧ (main ["p"] w0).exitCode = 1 :=
  C9_error_path_prints_only_usage ["p"] w0 (by decide)

/-- C10: the webhook handler template has exactly seven explicit
event-type case labels — the seven listed Stripe event types — plus
exactly one `default:` branch. -/
theorem C10_webhook_case_labels (w : World) :
    countOccursB ("case \"".data) ((generate_webhook_handler w).1).data = 7 ∧
    countOccursB ("default:".data) ((generate_webhook_handler w).1).data = 1 ∧
    occursB ("case \"checkout.session.completed\":".data)
      ((generate_webhook_handler w).1).data = true ∧
    occursB ("case \"payment_intent.succeeded\":".data)
      ((generate_webhook_handler w).1).data = true ∧
    occursB ("case \"payment_intent.payment_failed\":".data)
      ((generate_webhook_handler w).1).data = true ∧
    occursB ("case \"customer.subscription.created\":".data)
      ((generate_webhook_handler w).1).data = true ∧
    occursB ("case \"customer.subscription.updated\":".data)
      ((generate_webhook_handler w).1).data = true ∧
    occursB ("case \"customer.subscription.deleted\":".data)
      ((generate_webhook_handler w).1).data = true ∧
    occursB ("case \"charge.refunded\":".data)
      ((generate_webhook_handler w).1).data = true := by
  simp only [generate_webhook_handler]
  exact ⟨by decide, by decide, by decide, by decide, by decide, by decide,
    by decide, by decide, by decide⟩
end PaymentNotifications
